import Mathlib

/-!
Verification development for the `message-credit` zk-circuits crate
(`packages/zk-circuits`): a shallow embedding of the four halo2 predicate
circuits (trust score, income range, identity, loan history), the FFI proof
lifecycle functions, and the C-boundary functions, together with theorems
settling the specification claims.

Field elements of the pasta base field `Fp` are embedded as their canonical
natural-number representative (a `Nat` below the modulus).  `Value<F>` is
embedded as `Option Nat` (`none` = `Value::unknown()`).  u64/u32 arithmetic
is `Nat` arithmetic with explicit `% 2^64` where overflow matters.
-/

namespace MessageCredit

/-- The pasta (Pallas base field) modulus, the modulus of `pasta_curves::Fp`. -/
def pallasP : Nat :=
  0x40000000000000000000000000000000224698fc094cf91b992d30ed00000001

/-- `F::from(n)` for a u64/u32 value `n`: the canonical representative of the
field element, i.e. `n` reduced mod the modulus. -/
def fpFrom (n : Nat) : Nat := n % pallasP

/-- `F::ZERO` as canonical representative. -/
def fpZero : Nat := 0

/-- `F::ONE` as canonical representative. -/
def fpOne : Nat := 1

/-- Little-endian base-256 digits: `toBytesLE x k` is the list of the `k`
low bytes of `x`, least significant first.  `to_repr` of a pasta field
element is exactly its 32 little-endian bytes. -/
def toBytesLE : Nat → Nat → List Nat
  | _, 0 => []
  | x, k + 1 => (x % 256) :: toBytesLE (x / 256) k

/-- `field.to_repr()`: the 32-byte little-endian representation of the
canonical representative. -/
def to_repr (x : Nat) : List Nat := toBytesLE x 32

/-- Lexicographic comparison of byte slices, as Rust's derived `Ord` on
`&[u8]`: compare element by element from the front; a shorter prefix is
smaller. -/
def lexCmp : List Nat → List Nat → Ordering
  | [], [] => .eq
  | [], _ :: _ => .lt
  | _ :: _, [] => .gt
  | a :: x, b :: y =>
    match compare a b with
    | .eq => lexCmp x y
    | .lt => .lt
    | .gt => .gt

/-- Rust `xs >= ys` on byte slices (lexicographic). -/
def lexGe (x y : List Nat) : Bool :=
  match lexCmp x y with
  | .lt => false
  | _ => true

/-- Rust `xs <= ys` on byte slices (lexicographic). -/
def lexLe (x y : List Nat) : Bool :=
  match lexCmp x y with
  | .gt => false
  | _ => true

/-- `Value::zip`: known only when both sides are known. -/
def vzip (a : Option α) (b : Option β) : Option (α × β) :=
  match a, b with
  | some x, some y => some (x, y)
  | _, _ => none

/-! ## Trust score circuit (`circuits/trust_score.rs`) -/

/-- `TrustScoreCircuit<F>`: private `trust_score`, public `threshold`,
both stored as `Value<F>` (here `Option Nat`). -/
structure TrustScoreCircuit where
  trust_score : Option Nat
  threshold : Option Nat
  deriving DecidableEq, Repr

/-- `TrustScoreCircuit::new(trust_score, threshold)`. -/
def TrustScoreCircuit.new (trust_score : Option Nat) (threshold : Nat) :
    TrustScoreCircuit :=
  { trust_score := trust_score.map fpFrom
    threshold := some (fpFrom threshold) }

/-- `TrustScoreCircuit::without_witnesses`. -/
def TrustScoreCircuit.without_witnesses (c : TrustScoreCircuit) :
    TrustScoreCircuit :=
  { trust_score := none
    threshold := c.threshold }

/-- The value `TrustScoreChip::assign_comparison` writes into the `result`
cell: `trust_score.zip(threshold).map(...)` compares the 32-byte
little-endian representations lexicographically. -/
def assign_comparison_result (trust_score threshold : Option Nat) :
    Option Nat :=
  (vzip trust_score threshold).map fun st =>
    if lexGe (to_repr st.1) (to_repr st.2) then fpOne else fpZero

/-- Result cell value produced when synthesizing a `TrustScoreCircuit`. -/
def TrustScoreCircuit.result (c : TrustScoreCircuit) : Option Nat :=
  assign_comparison_result c.trust_score c.threshold

/-- The expected public input recomputed inside
`generate_trust_score_proof`: `if trust_score >= threshold { Fp::one() }
else { Fp::zero() }` on the u32 inputs. -/
def expected_public_input (trust_score threshold : Nat) : Nat :=
  if trust_score ≥ threshold then fpOne else fpZero

/-! ## Income range circuit (`circuits/income_range.rs`) -/

/-- `IncomeRangeCircuit<F>`: private `income`, public `min_range`,
`max_range`. -/
structure IncomeRangeCircuit where
  income : Option Nat
  min_range : Option Nat
  max_range : Option Nat
  deriving DecidableEq, Repr

/-- `IncomeRangeCircuit::new(income, min_range, max_range)`. -/
def IncomeRangeCircuit.new (income : Option Nat) (min_range max_range : Nat) :
    IncomeRangeCircuit :=
  { income := income.map fpFrom
    min_range := some (fpFrom min_range)
    max_range := some (fpFrom max_range) }

/-- `IncomeRangeCircuit::without_witnesses`. -/
def IncomeRangeCircuit.without_witnesses (c : IncomeRangeCircuit) :
    IncomeRangeCircuit :=
  { income := none
    min_range := c.min_range
    max_range := c.max_range }

/-- The value `IncomeRangeChip::assign_range_check` writes into the
`result` cell: byte-wise comparison of the little-endian field
representations against both bounds. -/
def assign_range_check_result (income min_range max_range : Option Nat) :
    Option Nat :=
  (vzip (vzip income min_range) max_range).map fun im =>
    if lexGe (to_repr im.1.1) (to_repr im.1.2) &&
        lexLe (to_repr im.1.1) (to_repr im.2) then fpOne else fpZero

/-- Result cell value produced when synthesizing an `IncomeRangeCircuit`. -/
def IncomeRangeCircuit.result (c : IncomeRangeCircuit) : Option Nat :=
  assign_range_check_result c.income c.min_range c.max_range

/-! ## Identity circuit (`circuits/identity.rs`) -/

/-- `IdentityCircuit<F>`: private `identity_hash`, public `commitment`. -/
structure IdentityCircuit where
  identity_hash : Option Nat
  commitment : Option Nat
  deriving DecidableEq, Repr

/-- `IdentityCircuit::new(identity_hash, commitment)`. -/
def IdentityCircuit.new (identity_hash : Option Nat) (commitment : Nat) :
    IdentityCircuit :=
  { identity_hash := identity_hash.map fpFrom
    commitment := some (fpFrom commitment) }

/-- `IdentityCircuit::new_with_fields(identity_hash, commitment)`. -/
def IdentityCircuit.new_with_fields (identity_hash commitment : Option Nat) :
    IdentityCircuit :=
  { identity_hash := identity_hash
    commitment := commitment }

/-- `IdentityCircuit::without_witnesses`. -/
def IdentityCircuit.without_witnesses (c : IdentityCircuit) :
    IdentityCircuit :=
  { identity_hash := none
    commitment := c.commitment }

/-- The value `IdentityChip::assign_identity_verification` writes into the
`result` cell: direct field equality of hash and commitment. -/
def assign_identity_result (identity_hash commitment : Option Nat) :
    Option Nat :=
  (vzip identity_hash commitment).map fun hc =>
    if hc.1 = hc.2 then fpOne else fpZero

/-! ## Loan history circuit (`circuits/loan_history.rs`) -/

/-- `LoanHistoryCircuit<F>`: private `num_loans` and
`successful_repayments`, public `min_success_rate`. -/
structure LoanHistoryCircuit where
  num_loans : Option Nat
  successful_repayments : Option Nat
  min_success_rate : Option Nat
  deriving DecidableEq, Repr

/-- `LoanHistoryCircuit::new(num_loans, successful_repayments,
min_success_rate)`. -/
def LoanHistoryCircuit.new (num_loans successful_repayments : Option Nat)
    (min_success_rate : Nat) : LoanHistoryCircuit :=
  { num_loans := num_loans.map fpFrom
    successful_repayments := successful_repayments.map fpFrom
    min_success_rate := some (fpFrom min_success_rate) }

/-- `LoanHistoryCircuit::without_witnesses`. -/
def LoanHistoryCircuit.without_witnesses (c : LoanHistoryCircuit) :
    LoanHistoryCircuit :=
  { num_loans := none
    successful_repayments := none
    min_success_rate := c.min_success_rate }

/-- `field_to_u64` inner loop: `result |= (byte as u64) << (i * 8)` over
the bytes, starting at index `i`. -/
def orBytes : List Nat → Nat → Nat
  | [], _ => 0
  | b :: rest, i => (b <<< (i * 8)) ||| orBytes rest (i + 1)

/-- `field_to_u64(field)`: or-assemble the first 8 little-endian bytes of
`field.to_repr()`. -/
def field_to_u64 (x : Nat) : Nat := orBytes ((to_repr x).take 8) 0

/-- The `success_rate` cell value in
`LoanHistoryChip::assign_loan_history_verification`: u64 arithmetic
(wrapping multiplication) on the decoded field elements, re-encoded as a
field element. -/
def success_rate_value (num_loans successful_repayments : Option Nat) :
    Option Nat :=
  (vzip num_loans successful_repayments).map fun lr =>
    let loans_u64 := field_to_u64 lr.1
    let repayments_u64 := field_to_u64 lr.2
    if loans_u64 = 0 then fpZero
    else fpFrom (repayments_u64 * 10000 % 2 ^ 64 / loans_u64)

/-- The value `assign_loan_history_verification` writes into the `result`
cell: `rate_u64 >= min_rate_u64` on the decoded field elements. -/
def assign_loan_history_result
    (num_loans successful_repayments min_success_rate : Option Nat) :
    Option Nat :=
  (vzip (success_rate_value num_loans successful_repayments)
    min_success_rate).map fun rm =>
    if field_to_u64 rm.2 ≤ field_to_u64 rm.1 then fpOne else fpZero

/-- Result cell value produced when synthesizing a `LoanHistoryCircuit`. -/
def LoanHistoryCircuit.result (c : LoanHistoryCircuit) : Option Nat :=
  assign_loan_history_result c.num_loans c.successful_repayments
    c.min_success_rate

/-- `utils::calculate_success_rate`: percentage × 100, with u64 wrapping
multiplication (release-mode semantics) and the explicit zero-denominator
rule. -/
def calculate_success_rate (num_loans successful_repayments : Nat) : Nat :=
  if num_loans = 0 then 0
  else successful_repayments * 10000 % 2 ^ 64 / num_loans

/-- `utils::meets_success_rate_threshold`. -/
def meets_success_rate_threshold
    (num_loans successful_repayments min_success_rate : Nat) : Bool :=
  decide (min_success_rate ≤
    calculate_success_rate num_loans successful_repayments)

/-- The ratio predicate as the spec's words state it: exact integer
arithmetic, `(successCount×10000 ÷ count) ≥ minRatio`, `count = 0` making
the rate 0.  Written from the spec for comparison with the source's
`meets_success_rate_threshold`. -/
def spec_ratio_predicate (count successCount minRatio : Nat) : Bool :=
  decide (minRatio ≤ if count = 0 then 0 else successCount * 10000 / count)

/-! ## Constraint system embedding (`halo2_proofs::plonk` front end)

Only the parts the circuits' `configure` functions touch: column and
selector allocation, equality enabling, and gate creation.  `Expression`
mirrors halo2's expression tree; Rust's `a - b` is `sum a (negated b)`. -/

inductive Expression where
  | constant : Nat → Expression
  | selectorExpr : Nat → Expression
  | advice : Nat → Expression
  | negated : Expression → Expression
  | sum : Expression → Expression → Expression
  | product : Expression → Expression → Expression
  deriving DecidableEq, Repr

structure ConstraintSystem where
  num_advice_columns : Nat
  num_instance_columns : Nat
  num_selectors : Nat
  advice_equality : List Nat
  instance_equality : List Nat
  gates : List (String × List Expression)
  deriving DecidableEq, Repr

def ConstraintSystem.empty : ConstraintSystem :=
  { num_advice_columns := 0, num_instance_columns := 0, num_selectors := 0
    advice_equality := [], instance_equality := [], gates := [] }

/-- `meta.advice_column()`: allocate a fresh advice column. -/
def ConstraintSystem.advice_column (cs : ConstraintSystem) :
    Nat × ConstraintSystem :=
  (cs.num_advice_columns,
    { cs with num_advice_columns := cs.num_advice_columns + 1 })

/-- `meta.instance_column()`. -/
def ConstraintSystem.instance_column (cs : ConstraintSystem) :
    Nat × ConstraintSystem :=
  (cs.num_instance_columns,
    { cs with num_instance_columns := cs.num_instance_columns + 1 })

/-- `meta.selector()`. -/
def ConstraintSystem.selector (cs : ConstraintSystem) :
    Nat × ConstraintSystem :=
  (cs.num_selectors, { cs with num_selectors := cs.num_selectors + 1 })

/-- `meta.enable_equality(col)` on an advice column. -/
def ConstraintSystem.enable_equality_advice (cs : ConstraintSystem)
    (c : Nat) : ConstraintSystem :=
  { cs with advice_equality := cs.advice_equality ++ [c] }

/-- `meta.enable_equality(col)` on an instance column. -/
def ConstraintSystem.enable_equality_instance (cs : ConstraintSystem)
    (c : Nat) : ConstraintSystem :=
  { cs with instance_equality := cs.instance_equality ++ [c] }

/-- `meta.create_gate(name, |meta| { ... })`: append the polynomial
constraints the closure returns.  (`query_advice`/`query_selector` calls
bound to `_`-prefixed names contribute no constraint.) -/
def ConstraintSystem.create_gate (cs : ConstraintSystem) (name : String)
    (polys : List Expression) : ConstraintSystem :=
  { cs with gates := cs.gates ++ [(name, polys)] }

def query_advice (c : Nat) : Expression := .advice c

def query_selector (s : Nat) : Expression := .selectorExpr s

/-- The single polynomial each of the four gates produces:
`s * (result * (result - 1))`. -/
def boolean_gate_poly (sel result : Nat) : Expression :=
  .product (query_selector sel)
    (.product (query_advice result)
      (.sum (query_advice result) (.negated (.constant fpOne))))

/-- Advice columns mentioned by an expression. -/
def advice_cols_of : Expression → List Nat
  | .constant _ => []
  | .selectorExpr _ => []
  | .advice c => [c]
  | .negated e => advice_cols_of e
  | .sum a b => advice_cols_of a ++ advice_cols_of b
  | .product a b => advice_cols_of a ++ advice_cols_of b

/-- `TrustScoreChip::configure`. -/
def TrustScoreChip.configure (meta0 : ConstraintSystem)
    (trust_score threshold result inst : Nat) : ConstraintSystem :=
  let (sel, meta1) := meta0.selector
  let meta2 := meta1.enable_equality_advice trust_score
  let meta3 := meta2.enable_equality_advice threshold
  let meta4 := meta3.enable_equality_advice result
  let meta5 := meta4.enable_equality_instance inst
  meta5.create_gate "trust_score_comparison" [boolean_gate_poly sel result]

/-- `<TrustScoreCircuit as Circuit>::configure`. -/
def TrustScoreCircuit.configure (meta0 : ConstraintSystem) :
    ConstraintSystem :=
  let (trust_score, m1) := meta0.advice_column
  let (threshold, m2) := m1.advice_column
  let (result, m3) := m2.advice_column
  let (inst, m4) := m3.instance_column
  TrustScoreChip.configure m4 trust_score threshold result inst

/-- `IncomeRangeChip::configure`. -/
def IncomeRangeChip.configure (meta0 : ConstraintSystem)
    (income min_range max_range result inst : Nat) : ConstraintSystem :=
  let (sel, meta1) := meta0.selector
  let meta2 := meta1.enable_equality_advice income
  let meta3 := meta2.enable_equality_advice min_range
  let meta4 := meta3.enable_equality_advice max_range
  let meta5 := meta4.enable_equality_advice result
  let meta6 := meta5.enable_equality_instance inst
  meta6.create_gate "income_range_check" [boolean_gate_poly sel result]

/-- `<IncomeRangeCircuit as Circuit>::configure`. -/
def IncomeRangeCircuit.configure (meta0 : ConstraintSystem) :
    ConstraintSystem :=
  let (income, m1) := meta0.advice_column
  let (min_range, m2) := m1.advice_column
  let (max_range, m3) := m2.advice_column
  let (result, m4) := m3.advice_column
  let (inst, m5) := m4.instance_column
  IncomeRangeChip.configure m5 income min_range max_range result inst

/-- `IdentityChip::configure`. -/
def IdentityChip.configure (meta0 : ConstraintSystem)
    (identity_hash commitment result inst : Nat) : ConstraintSystem :=
  let (sel, meta1) := meta0.selector
  let meta2 := meta1.enable_equality_advice identity_hash
  let meta3 := meta2.enable_equality_advice commitment
  let meta4 := meta3.enable_equality_advice result
  let meta5 := meta4.enable_equality_instance inst
  meta5.create_gate "identity_verification" [boolean_gate_poly sel result]

/-- `<IdentityCircuit as Circuit>::configure`. -/
def IdentityCircuit.configure (meta0 : ConstraintSystem) :
    ConstraintSystem :=
  let (identity_hash, m1) := meta0.advice_column
  let (commitment, m2) := m1.advice_column
  let (result, m3) := m2.advice_column
  let (inst, m4) := m3.instance_column
  IdentityChip.configure m4 identity_hash commitment result inst

/-- `LoanHistoryChip::configure`. -/
def LoanHistoryChip.configure (meta0 : ConstraintSystem)
    (num_loans successful_repayments min_success_rate success_rate
      result inst : Nat) : ConstraintSystem :=
  let (sel, meta1) := meta0.selector
  let meta2 := meta1.enable_equality_advice num_loans
  let meta3 := meta2.enable_equality_advice successful_repayments
  let meta4 := meta3.enable_equality_advice min_success_rate
  let meta5 := meta4.enable_equality_advice success_rate
  let meta6 := meta5.enable_equality_advice result
  let meta7 := meta6.enable_equality_instance inst
  meta7.create_gate "loan_history_verification" [boolean_gate_poly sel result]

/-- `<LoanHistoryCircuit as Circuit>::configure`. -/
def LoanHistoryCircuit.configure (meta0 : ConstraintSystem) :
    ConstraintSystem :=
  let (num_loans, m1) := meta0.advice_column
  let (successful_repayments, m2) := m1.advice_column
  let (min_success_rate, m3) := m2.advice_column
  let (success_rate, m4) := m3.advice_column
  let (result, m5) := m4.advice_column
  let (inst, m6) := m5.instance_column
  LoanHistoryChip.configure m6 num_loans successful_repayments
    min_success_rate success_rate result inst

/-! ## FFI proof lifecycle (`ffi/mod.rs`) -/

/-- Modelled from the spec: the polynomial-commitment proving backend
(halo2 `create_proof`/`verify_proof`) is an external collaborator.  Per
the spec a ProofArtifact is "an opaque ordered byte sequence plus the
public instance value(s) it was produced against", and backend
verification checks a proof exactly against the public instance it was
bound to. -/
structure ProofArtifact where
  public_instance : List Nat
  deriving DecidableEq, Repr

/-- Modelled from the spec: backend proof creation binds the public
instance column values into the artifact. -/
def backend_create_proof (public_instance : List Nat) : ProofArtifact :=
  ⟨public_instance⟩

/-- Modelled from the spec: backend verification succeeds exactly when the
supplied public instance matches the one the proof was produced
against. -/
def backend_verify_proof (public_instance : List Nat)
    (proof : ProofArtifact) : Bool :=
  decide (proof.public_instance = public_instance)

/-- The three `static mut` globals of `ffi/mod.rs`
(`SETUP_PARAMS`, `PROVING_KEY`, `VERIFYING_KEY`); the params and keys
themselves are opaque to every claim, so they are embedded as `Unit`. -/
structure ZkSystemState where
  setup_params : Option Unit
  proving_key : Option Unit
  verifying_key : Option Unit
  deriving DecidableEq, Repr

/-- `generate_trust_score_proof(trust_score, threshold)`: check
`SETUP_PARAMS` then `PROVING_KEY`, recompute the expected public input by
integer comparison, and invoke the backend.  Returns the result together
with the (unchanged) global state. -/
def generate_trust_score_proof (st : ZkSystemState)
    (trust_score threshold : Nat) :
    Except String ProofArtifact × ZkSystemState :=
  match st.setup_params with
  | none => (.error "ZK system not initialized", st)
  | some _ =>
    match st.proving_key with
    | none => (.error "Proving key not available", st)
    | some _ =>
      let public_input :=
        if trust_score ≥ threshold then fpOne else fpZero
      (.ok (backend_create_proof [public_input]), st)

/-- `verify_trust_score_proof(proof_data, threshold, expected_result)`:
check `SETUP_PARAMS` then `VERIFYING_KEY`, rebuild the public input from
`expected_result`, and return `Ok(verification_result.is_ok())`.  The
`threshold` argument is unused by the source body. -/
def verify_trust_score_proof (st : ZkSystemState)
    (proof_data : ProofArtifact) (_threshold : Nat)
    (expected_result : Bool) : Except String Bool × ZkSystemState :=
  match st.setup_params with
  | none => (.error "ZK system not initialized", st)
  | some _ =>
    match st.verifying_key with
    | none => (.error "Verifying key not available", st)
    | some _ =>
      let public_input := if expected_result then fpOne else fpZero
      (.ok (backend_verify_proof [public_input] proof_data), st)

/-! ## C boundary (`generate_trust_proof`, `verify_trust_proof`,
`free_proof_result`) -/

/-- The byte string `b"mock_proof_data"`. -/
def mock_proof_data : List Nat :=
  [109, 111, 99, 107, 95, 112, 114, 111, 111, 102, 95, 100, 97, 116, 97]

/-- Modelled from the spec: the debug mock-evaluation path "runs the
constraint system directly over concrete witnesses, asserting every gate
and copy constraint is satisfied".  For the trust-score circuit that is
the boolean gate `result * (result - 1) = 0` (over the field, i.e.
`result ∈ {0, 1}`) plus the copy constraint binding the result cell to
instance row 0. -/
def mock_prover_verify_trust (trust_score threshold public_input : Nat) :
    Bool :=
  match assign_comparison_result (some (fpFrom trust_score))
      (some (fpFrom threshold)) with
  | none => false
  | some r => (decide (r = 0) || decide (r = 1)) && decide (r = public_input)

/-- `ProofResult`, the `#[repr(C)]` result structure: null pointers are
`none`. -/
structure ProofResult where
  success : Bool
  proof_data : Option (List Nat)
  proof_len : Nat
  error_message : Option String
  deriving DecidableEq, Repr

/-- `generate_trust_proof(trust_score, threshold)`: run the mock prover
against the integer-comparison public input; on success return
`b"mock_proof_data"` (the malloc of the 15-byte buffer is assumed to
succeed), otherwise a null proof with an error message. -/
def generate_trust_proof (trust_score threshold : Nat) : ProofResult :=
  let expected_result := if trust_score ≥ threshold then fpOne else fpZero
  if mock_prover_verify_trust trust_score threshold expected_result then
    { success := true, proof_data := some mock_proof_data
      proof_len := mock_proof_data.length, error_message := none }
  else
    { success := false, proof_data := none, proof_len := 0
      error_message := some "Circuit verification failed" }

/-- Reading `len` bytes from a possibly-null buffer:
`slice::from_raw_parts` on a null pointer is a fault (`.error ()`). -/
def read_bytes (buf : Option (List Nat)) (len : Nat) :
    Except Unit (List Nat) :=
  match buf with
  | none => .error ()
  | some bytes => .ok (bytes.take len)

/-- `verify_trust_proof(proof_data, proof_len, _threshold,
_expected_result)`: returns 0 immediately on null/zero-length input, then
compares the buffer against `b"mock_proof_data"`.  The threshold and
claimed-result arguments are ignored by the source body.  The `Except`
layer records whether a null dereference ever happens. -/
def verify_trust_proof (proof_data : Option (List Nat)) (proof_len : Nat)
    (_threshold : Nat) (_expected_result : Bool) : Except Unit Int :=
  if proof_data = none ∨ proof_len = 0 then .ok 0
  else if proof_len = mock_proof_data.length then
    match read_bytes proof_data proof_len with
    | .error e => .error e
    | .ok proof_slice =>
      if proof_slice = mock_proof_data then .ok 1 else .ok 0
  else .ok 0

/-- `free_proof_result(result)`: the deallocation actions performed, in
order.  A null result pointer is returned without any action. -/
def free_proof_result (result : Option ProofResult) : List String :=
  match result with
  | none => []
  | some r =>
    (if r.proof_data ≠ none then ["free(proof_data)"] else []) ++
    (if r.error_message ≠ none then ["free(error_message)"] else []) ++
    ["drop(result)"]

/-- Mathematical value of a little-endian byte list. -/
def assembleLE : List Nat → Nat
  | [] => 0
  | b :: rest => b + 256 * assembleLE rest


/-! ## Theorems -/

/-! ## Byte-representation lemmas -/

theorem toBytesLE_zero (k : Nat) : toBytesLE 0 k = List.replicate k 0 := by
  induction k with
  | zero => rfl
  | succ k ih => simp [toBytesLE, ih, List.replicate]

theorem toBytesLE_succ (x k : Nat) :
    toBytesLE x (k + 1) = (x % 256) :: toBytesLE (x / 256) k := rfl

theorem to_repr_small {a : Nat} (h : a < 256) :
    to_repr a = a :: List.replicate 31 0 := by
  rw [to_repr, show (32 : Nat) = 31 + 1 from rfl, toBytesLE_succ,
    Nat.mod_eq_of_lt h, Nat.div_eq_of_lt h, toBytesLE_zero]

theorem lexCmp_self (l : List Nat) : lexCmp l l = .eq := by
  induction l with
  | nil => rfl
  | cons a t ih =>
    have h : compare a a = .eq := Nat.compare_eq_eq.mpr rfl
    simp [lexCmp, h, ih]

/-- For single-byte values the lexicographic little-endian byte comparison
agrees with integer comparison. -/
theorem lexGe_small {a b : Nat} (ha : a < 256) (hb : b < 256) :
    lexGe (to_repr a) (to_repr b) = decide (b ≤ a) := by
  rw [to_repr_small ha, to_repr_small hb]
  rcases Nat.lt_trichotomy a b with h | h | h
  · have hc : compare a b = .lt := Nat.compare_eq_lt.mpr h
    simp [lexGe, lexCmp, hc, Nat.not_le.mpr h]
  · subst h
    simp [lexGe, lexCmp_self]
  · have hc : compare a b = .gt := Nat.compare_eq_gt.mpr h
    simp [lexGe, lexCmp, hc, Nat.le_of_lt h]

theorem lt_pallasP_of_lt_256 {a : Nat} (h : a < 256) : a < pallasP :=
  lt_trans h (by decide)

theorem fpFrom_small {a : Nat} (h : a < pallasP) : fpFrom a = a :=
  Nat.mod_eq_of_lt h

/-! ## Claims C1 and C2 -/

/-- C1 (counterexample): at trust_score = 256, threshold = 1 the expected
public input recomputed by `generate_trust_score_proof` (integer
comparison: 256 ≥ 1, so `Fp::one()`) differs from the value
`assign_comparison` writes into the result cell (lexicographic comparison
of little-endian bytes: `[0,1,0,...] < [1,0,0,...]`, so `Fp::zero()`). -/
theorem c1_counterexample :
    expected_public_input 256 1 = fpOne ∧
    assign_comparison_result (some (fpFrom 256)) (some (fpFrom 1)) =
      some fpZero ∧
    fpOne ≠ fpZero := by decide

/-- C1 (amended): for trust_score and threshold both below 256 — in
particular for all inputs exercised by the crate's own tests — the public
boolean recomputed by `generate_trust_score_proof` agrees bit-for-bit with
the value `assign_comparison` writes into the result cell. -/
theorem c1_equiv_small (ts th : Nat) (hts : ts < 256) (hth : th < 256) :
    assign_comparison_result (some (fpFrom ts)) (some (fpFrom th)) =
      some (expected_public_input ts th) := by
  rw [fpFrom_small (lt_pallasP_of_lt_256 hts),
    fpFrom_small (lt_pallasP_of_lt_256 hth)]
  simp only [assign_comparison_result, vzip, Option.map_some',
    lexGe_small hts hth, expected_public_input, ge_iff_le,
    decide_eq_true_eq]

theorem c1_equiv_small_witness :
    assign_comparison_result (some (fpFrom 75)) (some (fpFrom 70)) =
      some (expected_public_input 75 70) :=
  c1_equiv_small 75 70 (by decide) (by decide)

/-- C2 (counterexample): for the circuit built by
`TrustScoreCircuit::new(Some(512), 2)` the assigned result is 0 even
though 512 ≥ 2 as integers, refuting "result is 1 iff score ≥ threshold"
on the full u64 domain. -/
theorem c2_counterexample :
    (TrustScoreCircuit.new (some 512) 2).result = some 0 ∧ 2 ≤ 512 := by
  decide

/-- C2 (amended): for known score and threshold below 256 the assigned
result is 1 iff score ≥ threshold as integers; the spec's boundary
literals score=70,threshold=70 ↦ 1 and score=69,threshold=70 ↦ 0 hold. -/
theorem c2_result_iff (s t : Nat) (hs : s < 256) (ht : t < 256) :
    ((TrustScoreCircuit.new (some s) t).result = some 1 ↔ t ≤ s) ∧
    (TrustScoreCircuit.new (some 70) 70).result = some 1 ∧
    (TrustScoreCircuit.new (some 69) 70).result = some 0 := by
  refine ⟨?_, by decide, by decide⟩
  rw [TrustScoreCircuit.new, TrustScoreCircuit.result]
  simp only [Option.map_some']
  rw [fpFrom_small (lt_pallasP_of_lt_256 hs),
    fpFrom_small (lt_pallasP_of_lt_256 ht)]
  simp only [assign_comparison_result, vzip, Option.map_some',
    lexGe_small hs ht, decide_eq_true_eq, fpOne, fpZero]
  split_ifs with h <;> simp [h]

theorem c2_result_iff_witness :
    (TrustScoreCircuit.new (some 80) 70).result = some 1 :=
  (c2_result_iff 80 70 (by decide) (by decide)).1.mpr (by decide)

/-! ## Decoding lemmas for `field_to_u64` -/

theorem toBytesLE_lt : ∀ k x : Nat, ∀ b ∈ toBytesLE x k, b < 256 := by
  intro k
  induction k with
  | zero => intro x b hb; simp [toBytesLE] at hb
  | succ k ih =>
    intro x b hb
    simp only [toBytesLE, List.mem_cons] at hb
    rcases hb with h | h
    · subst h; exact Nat.mod_lt _ (by norm_num)
    · exact ih _ b h

/-- Or-ing bytes shifted into disjoint ranges is positional assembly. -/
theorem orBytes_eq :
    ∀ l : List Nat, (∀ b ∈ l, b < 256) →
      ∀ i, orBytes l i = 2 ^ (8 * i) * assembleLE l := by
  intro l
  induction l with
  | nil => intro _ i; simp [orBytes, assembleLE]
  | cons b rest ih =>
    intro hl i
    have hb : b < 256 := hl b (List.mem_cons_self b rest)
    have hrest : ∀ x ∈ rest, x < 256 := fun x hx => hl x (List.mem_cons_of_mem b hx)
    have hlt : b <<< (i * 8) < 2 ^ (8 * (i + 1)) := by
      rw [Nat.shiftLeft_eq]
      calc b * 2 ^ (i * 8) < 256 * 2 ^ (i * 8) :=
            mul_lt_mul_of_pos_right hb (pow_pos (by norm_num) _)
        _ = 2 ^ (8 * (i + 1)) := by
            rw [show (256 : Nat) = 2 ^ 8 from rfl, ← pow_add]
            congr 1
            ring
    rw [orBytes, ih hrest (i + 1), Nat.or_comm,
      ← Nat.mul_add_lt_is_or hlt (assembleLE rest), Nat.shiftLeft_eq,
      assembleLE, show 8 * (i + 1) = 8 * i + 8 by ring, pow_add,
      show (2 : Nat) ^ 8 = 256 from rfl, show i * 8 = 8 * i by ring]
    ring

theorem assembleLE_toBytesLE :
    ∀ k x : Nat, assembleLE (toBytesLE x k) = x % 256 ^ k := by
  intro k
  induction k with
  | zero => intro x; simp [toBytesLE, assembleLE, Nat.mod_one]
  | succ k ih =>
    intro x
    rw [toBytesLE_succ, assembleLE, ih (x / 256),
      show (256 : Nat) ^ (k + 1) = 256 * 256 ^ k by ring, Nat.mod_mul]

theorem toBytesLE_take :
    ∀ k m x : Nat, (toBytesLE x (k + m)).take k = toBytesLE x k := by
  intro k
  induction k with
  | zero => intro m x; simp [toBytesLE]
  | succ k ih =>
    intro m x
    rw [show k + 1 + m = (k + m) + 1 by ring, toBytesLE_succ, toBytesLE_succ,
      List.take_succ_cons, ih m (x / 256)]

/-- `field_to_u64` reads off the canonical value mod 2^64. -/
theorem field_to_u64_eq (x : Nat) : field_to_u64 x = x % 2 ^ 64 := by
  rw [field_to_u64, to_repr, show (32 : Nat) = 8 + 24 from rfl,
    toBytesLE_take, orBytes_eq _ (toBytesLE_lt 8 x) 0,
    assembleLE_toBytesLE, show (256 : Nat) ^ 8 = 2 ^ 64 by norm_num]
  simp

theorem two_pow_64_lt_pallasP : 2 ^ 64 < pallasP := by decide

/-- Decoding a u64 embedded with `F::from` recovers it. -/
theorem field_to_u64_fpFrom {n : Nat} (h : n < 2 ^ 64) :
    field_to_u64 (fpFrom n) = n := by
  rw [fpFrom_small (lt_trans h two_pow_64_lt_pallasP), field_to_u64_eq,
    Nat.mod_eq_of_lt h]

/-! ## Claim C10 -/

/-- C10: for every u64 value `n`, `field_to_u64(F::from(n)) = n`:
`field_to_u64` (assembling the first 8 little-endian bytes of the field
representation) is a left inverse of `F::from` on the u64 domain. -/
theorem c10_field_to_u64_left_inverse (n : Nat) (h : n < 2 ^ 64) :
    field_to_u64 (fpFrom n) = n :=
  field_to_u64_fpFrom h

theorem c10_field_to_u64_left_inverse_witness :
    field_to_u64 (fpFrom 123456789) = 123456789 :=
  c10_field_to_u64_left_inverse 123456789 (by decide)

/-! ## Claim C5 -/

/-- C5 (counterexample): the multiplication `successful_repayments * 10000`
is u64 arithmetic, so at count = 1, successCount = 2^60, minRatio = 1 the
product wraps to 0 mod 2^64 and the code answers `false`, while the
claim's exact-integer formula `(successCount×10000 ÷ count) ≥ minRatio`
says `true`. -/
theorem c5_counterexample :
    meets_success_rate_threshold 1 (2 ^ 60) 1 = false ∧
    spec_ratio_predicate 1 (2 ^ 60) 1 = true := by decide

/-- C5 (amended): for u64 inputs the assigned circuit result agrees with
`utils::meets_success_rate_threshold`, which computes
`(successCount * 10000 mod 2^64) / count ≥ minRatio` with the explicit
`count = 0 ⇒ rate 0` rule; this equals the claim's exact-integer formula
whenever `successCount * 10000` does not overflow u64.  The boundary
literals hold: count=10, successCount=8, minRatio=8000 gives true and
count=0, successCount=0 with any positive minRatio gives false. -/
theorem c5_ratio_semantics (n s m : Nat) (hn : n < 2 ^ 64)
    (hs : s < 2 ^ 64) (hm : m < 2 ^ 64) :
    (LoanHistoryCircuit.new (some n) (some s) m).result =
      some (if meets_success_rate_threshold n s m then fpOne else fpZero) ∧
    (s * 10000 < 2 ^ 64 →
      meets_success_rate_threshold n s m = spec_ratio_predicate n s m) ∧
    meets_success_rate_threshold 10 8 8000 = true ∧
    (∀ mr, 0 < mr → meets_success_rate_threshold 0 0 mr = false) := by
  refine ⟨?_, ?_, by decide, ?_⟩
  · rw [LoanHistoryCircuit.new, LoanHistoryCircuit.result]
    simp only [Option.map_some']
    rw [assign_loan_history_result, success_rate_value]
    simp only [vzip, Option.map_some']
    rw [field_to_u64_fpFrom hn, field_to_u64_fpFrom hs,
      field_to_u64_fpFrom hm]
    by_cases h0 : n = 0
    · subst h0
      rw [if_pos rfl, show field_to_u64 fpZero = 0 from by
        simp [fpZero, field_to_u64_eq],
        meets_success_rate_threshold, calculate_success_rate, if_pos rfl]
      by_cases hm0 : m ≤ 0
      · simp [hm0]
      · simp [hm0]
    · have hrate : s * 10000 % 2 ^ 64 / n < 2 ^ 64 :=
        lt_of_le_of_lt (Nat.div_le_self _ _) (Nat.mod_lt _ (by norm_num))
      rw [if_neg h0, field_to_u64_fpFrom hrate,
        meets_success_rate_threshold, calculate_success_rate, if_neg h0]
      by_cases hcmp : m ≤ s * 10000 % 2 ^ 64 / n
      · simp [hcmp]
      · simp [hcmp]
  · intro hov
    rw [meets_success_rate_threshold, calculate_success_rate,
      spec_ratio_predicate, Nat.mod_eq_of_lt hov]
  · intro mr hmr
    simp [meets_success_rate_threshold, calculate_success_rate,
      Nat.not_le.mpr hmr]

theorem c5_ratio_semantics_witness :
    (LoanHistoryCircuit.new (some 10) (some 8) 8000).result = some fpOne := by
  have h := (c5_ratio_semantics 10 8 8000 (by decide) (by decide)
    (by decide)).1
  rw [show meets_success_rate_threshold 10 8 8000 = true by decide] at h
  simpa using h

/-! ## Claim C9 -/

/-- C9: for each of the four predicate circuits, `without_witnesses`
returns a circuit whose private-witness fields are all
`Value::unknown()` while every public-parameter field (threshold,
min_range, max_range, commitment, min_success_rate) is unchanged. -/
theorem c9_without_witnesses (ct : TrustScoreCircuit)
    (ci : IncomeRangeCircuit) (cid : IdentityCircuit)
    (cl : LoanHistoryCircuit) :
    ct.without_witnesses =
      { trust_score := none, threshold := ct.threshold } ∧
    ci.without_witnesses =
      { income := none, min_range := ci.min_range,
        max_range := ci.max_range } ∧
    cid.without_witnesses =
      { identity_hash := none, commitment := cid.commitment } ∧
    cl.without_witnesses =
      { num_loans := none, successful_repayments := none,
        min_success_rate := cl.min_success_rate } :=
  ⟨rfl, rfl, rfl, rfl⟩

/-! ## Claim C4 -/

/-- C4: each of the four predicate circuits' `configure` installs exactly
one gate, whose only polynomial constraint is
`s * (result * (result - 1))` guarded by the circuit's selector; the gate
mentions no advice column other than the result column, so no comparison,
range, division, or equality logic over the other advice columns appears
in the constraint system. -/
theorem c4_single_boolean_gate :
    ((TrustScoreCircuit.configure ConstraintSystem.empty).gates =
        [("trust_score_comparison", [boolean_gate_poly 0 2])] ∧
      advice_cols_of (boolean_gate_poly 0 2) = [2, 2]) ∧
    ((IncomeRangeCircuit.configure ConstraintSystem.empty).gates =
        [("income_range_check", [boolean_gate_poly 0 3])] ∧
      advice_cols_of (boolean_gate_poly 0 3) = [3, 3]) ∧
    ((IdentityCircuit.configure ConstraintSystem.empty).gates =
        [("identity_verification", [boolean_gate_poly 0 2])] ∧
      advice_cols_of (boolean_gate_poly 0 2) = [2, 2]) ∧
    ((LoanHistoryCircuit.configure ConstraintSystem.empty).gates =
        [("loan_history_verification", [boolean_gate_poly 0 4])] ∧
      advice_cols_of (boolean_gate_poly 0 4) = [4, 4]) :=
  ⟨⟨rfl, rfl⟩, ⟨rfl, rfl⟩, ⟨rfl, rfl⟩, ⟨rfl, rfl⟩⟩

/-! ## Claim C3 -/

/-- C3 (counterexample): `generate_trust_proof(75, 70)` succeeds and
returns the mock proof bytes, whose public boolean is `true` (75 ≥ 70);
yet the C-boundary `verify_trust_proof` answers 1 (verified) for the
claimed result `false`, because it ignores its `_expected_result`
argument. -/
theorem c3_counterexample :
    (generate_trust_proof 75 70).success = true ∧
    (generate_trust_proof 75 70).proof_data = some mock_proof_data ∧
    verify_trust_proof (generate_trust_proof 75 70).proof_data
      (generate_trust_proof 75 70).proof_len 70 false = .ok 1 :=
  ⟨rfl, rfl, rfl⟩

/-- C3 (amended): for the managed path, on an initialized system every
proof produced by `generate_trust_score_proof` fails
`verify_trust_score_proof` (returns `Ok(false)`) whenever the claimed
result disagrees with the boolean used to build the proof's public
instance; the C-boundary `verify_trust_proof`, by contrast, ignores both
the threshold and the claimed result entirely, so mismatch rejection does
not hold there. -/
theorem c3_mismatch_rejection (st : ZkSystemState) (ts th : Nat) (e : Bool)
    (proof : ProofArtifact)
    (hvk : st.verifying_key ≠ none)
    (hgen : (generate_trust_score_proof st ts th).1 = .ok proof)
    (hmis : e ≠ decide (th ≤ ts)) :
    (verify_trust_score_proof st proof th e).1 = .ok false ∧
    (∀ pd pl th1 th2 e1 e2,
      verify_trust_proof pd pl th1 e1 = verify_trust_proof pd pl th2 e2) := by
  refine ⟨?_, fun pd pl th1 th2 e1 e2 => rfl⟩
  cases hps : st.setup_params with
  | none => simp [generate_trust_score_proof, hps] at hgen
  | some u =>
    cases hpk : st.proving_key with
    | none => simp [generate_trust_score_proof, hps, hpk] at hgen
    | some v =>
      simp only [generate_trust_score_proof, hps, hpk] at hgen
      cases hvks : st.verifying_key with
      | none => exact absurd hvks hvk
      | some w =>
        simp only [verify_trust_score_proof, hps, hvks]
        rw [show proof = backend_create_proof
          [if ts ≥ th then fpOne else fpZero] from
            (Except.ok.inj hgen).symm]
        cases e with
        | false =>
          have hts : th ≤ ts := by
            rcases le_or_lt th ts with h | h
            · exact h
            · exact absurd (by simp [Nat.not_le.mpr h]) hmis
          simp [backend_verify_proof, backend_create_proof, ge_iff_le,
            hts, fpOne, fpZero]
        | true =>
          have hts : ¬ th ≤ ts := by
            intro h
            exact hmis (by simp [h])
          simp [backend_verify_proof, backend_create_proof, ge_iff_le,
            hts, fpOne, fpZero]

theorem c3_mismatch_rejection_witness :
    (verify_trust_score_proof ⟨some (), some (), some ()⟩ ⟨[fpOne]⟩ 70
      false).1 = .ok false :=
  (c3_mismatch_rejection ⟨some (), some (), some ()⟩ 75 70 false ⟨[fpOne]⟩
    (by decide) rfl (by decide)).1

/-! ## Claim C6 -/

/-- C6: on an initialized system `verify_trust_score_proof` always
returns `Ok` of the backend's boolean — never an error for a proof that
merely fails to verify — and an error is only ever returned when the
setup parameters or verifying key are unset. -/
theorem c6_verify_error_contract (st : ZkSystemState)
    (proof : ProofArtifact) (th : Nat) (e : Bool) :
    (st.setup_params.isSome = true → st.verifying_key.isSome = true →
      (verify_trust_score_proof st proof th e).1 =
        .ok (backend_verify_proof [if e then fpOne else fpZero] proof)) ∧
    (∀ msg, (verify_trust_score_proof st proof th e).1 = .error msg →
      st.setup_params = none ∨ st.verifying_key = none) := by
  cases hps : st.setup_params <;> cases hvk : st.verifying_key <;>
    simp [verify_trust_score_proof, hps, hvk]

theorem c6_verify_error_contract_witness :
    (verify_trust_score_proof ⟨some (), some (), some ()⟩ ⟨[1]⟩ 70
      true).1 = .ok true := by
  have h := (c6_verify_error_contract ⟨some (), some (), some ()⟩ ⟨[1]⟩ 70
    true).1 rfl rfl
  simpa [backend_verify_proof, fpOne] using h

/-! ## Claim C7 -/

/-- C7: if the global setup parameters and keys are all unset,
`generate_trust_score_proof` and `verify_trust_score_proof` each return
a not-initialized error immediately and leave the global state unchanged,
for every argument value. -/
theorem c7_uninitialized_rejects (st : ZkSystemState) (ts th : Nat)
    (proof : ProofArtifact) (e : Bool)
    (hp : st.setup_params = none) (_hpk : st.proving_key = none)
    (_hvk : st.verifying_key = none) :
    generate_trust_score_proof st ts th =
      (.error "ZK system not initialized", st) ∧
    verify_trust_score_proof st proof th e =
      (.error "ZK system not initialized", st) := by
  simp [generate_trust_score_proof, verify_trust_score_proof, hp]

theorem c7_uninitialized_rejects_witness :
    generate_trust_score_proof ⟨none, none, none⟩ 75 70 =
      (.error "ZK system not initialized", ⟨none, none, none⟩) ∧
    verify_trust_score_proof ⟨none, none, none⟩ ⟨[1]⟩ 70 true =
      (.error "ZK system not initialized", ⟨none, none, none⟩) :=
  c7_uninitialized_rejects ⟨none, none, none⟩ 75 70 ⟨[1]⟩ true rfl rfl rfl

/-! ## Claim C8 -/

/-- C8: at the C boundary, `verify_trust_proof` returns 0 without
dereferencing the buffer whenever `proof_data` is null or `proof_len` is
0; it never faults on any input; and `free_proof_result` performs no
action on a null pointer. -/
theorem verify_trust_proof_some (bytes : List Nat) (len th : Nat)
    (e : Bool) (h0 : len ≠ 0) (hl : len = mock_proof_data.length) :
    verify_trust_proof (some bytes) len th e =
      if bytes.take len = mock_proof_data then .ok 1 else .ok 0 := by
  rw [verify_trust_proof, if_neg (by simp [h0]), if_pos hl]
  rfl

theorem c8_null_safety :
    (∀ len th e, verify_trust_proof none len th e = .ok 0) ∧
    (∀ buf th e, verify_trust_proof buf 0 th e = .ok 0) ∧
    (∀ buf len th e, ∃ v, verify_trust_proof buf len th e = .ok v) ∧
    free_proof_result none = [] := by
  refine ⟨fun len th e => by simp [verify_trust_proof],
    fun buf th e => by simp [verify_trust_proof],
    fun buf len th e => ?_, rfl⟩
  rcases buf with _ | bytes
  · exact ⟨0, by simp [verify_trust_proof]⟩
  · by_cases h0 : len = 0
    · exact ⟨0, by simp [verify_trust_proof, h0]⟩
    · by_cases hl : len = mock_proof_data.length
      · rw [verify_trust_proof_some bytes len th e h0 hl]
        by_cases hm : bytes.take len = mock_proof_data
        · exact ⟨1, by rw [if_pos hm]⟩
        · exact ⟨0, by rw [if_neg hm]⟩
      · exact ⟨0, by rw [verify_trust_proof, if_neg (by simp [h0]),
          if_neg hl]⟩

end MessageCredit
